import Mathlib

/-!
Verification of the iterative-refinement control loop (`EvaluatorOptimizerLLM`
in `evaluator_optimizer.py`) and of the reference passthrough generator
(`PassthroughLLM` in `augmented_llm_passthrough.py`).

The generator and evaluator capabilities are external collaborators; we model
each as a trace oracle indexed by the number of calls made so far, receiving
the exact prompt text the code would send.  Candidates (generator responses)
are an opaque type `α`; `respText` models Python's rendering of a response to
text for prompt embedding.
-/

/-- `QualityRating` from `evaluator_optimizer.py`.  The Python enum mixes in
`str` with values "0".."3"; comparison of those one-character strings
coincides with comparison of the integer ranks, which we use directly. -/
inductive QualityRating where
  | POOR
  | FAIR
  | GOOD
  | EXCELLENT
deriving DecidableEq, Repr

/-- Integer rank of a rating (the `.value` used by the loop's comparisons). -/
def QualityRating.toNat : QualityRating → Nat
  | .POOR => 0
  | .FAIR => 1
  | .GOOD => 2
  | .EXCELLENT => 3

/-- `EvaluationResult` model from `evaluator_optimizer.py`. -/
structure EvaluationResult where
  rating : QualityRating
  feedback : String
  needs_improvement : Bool
  focus_areas : List String
deriving DecidableEq, Repr

/-- One entry of `self.refinement_history`: the dict
`\x7b"attempt": refinement_count + 1, "response": response,
"evaluation_result": evaluation_result\x7d`. -/
structure RefinementRecord (α : Type) where
  attempt : Nat
  candidate : α
  evaluation : EvaluationResult
deriving DecidableEq, Repr

/-- The controller configuration fixed at construction:
`min_rating`, `max_refinements` (a Python `int`, hence `Int`), whether the
generator retains history (truthiness of `self.history` in
`_build_refinement_prompt`), and the evaluator's instruction text used by
`_build_eval_prompt`. -/
structure EOConfig where
  min_rating : QualityRating
  max_refinements : Int
  history_enabled : Bool
  evaluator_instruction : String

/-- Result of one run of `EvaluatorOptimizerLLM.generate`, together with the
externally observable trace data: the recorded history, the sequence of
`(best_response, best_rating)` snapshots taken after each evaluation is
processed, and the number of generator / evaluator calls made. -/
structure RunResult (α : Type) where
  best : α
  bestRating : QualityRating
  history : List (RefinementRecord α)
  snaps : List (α × QualityRating)
  genCalls : Nat
  evalCalls : Nat
deriving Repr

/-- Rendering of `\x7bfeedback.rating\x7d` inside the refinement prompt
f-string (CPython ≥ 3.11 renders a `str`-mixin enum member with its class
name).  No claim depends on this exact text. -/
def ratingLabel : QualityRating → String
  | .POOR => "QualityRating.POOR"
  | .FAIR => "QualityRating.FAIR"
  | .GOOD => "QualityRating.GOOD"
  | .EXCELLENT => "QualityRating.EXCELLENT"

/-- `", ".join(feedback.focus_areas) if feedback.focus_areas else "None specified"`. -/
def focusAreasText (fa : List String) : String :=
  if fa.isEmpty then "None specified" else String.intercalate ", " fa

/-- `EvaluatorOptimizerLLM._build_eval_prompt`, transcribed literally. -/
def buildEvalPrompt (evaluatorInstruction originalRequest currentResponse : String)
    (iteration : Nat) : String :=
  "\nYou are an expert evaluator for content quality. Your task is to evaluate a response against the user\x27s original request.\n\nEvaluate the response for iteration "
  ++ toString (iteration + 1)
  ++ " and provide structured feedback on its quality and areas for improvement.\n\n<fastagent:data>\n<fastagent:request>\n"
  ++ originalRequest
  ++ "\n</fastagent:request>\n\n<fastagent:response>\n"
  ++ currentResponse
  ++ "\n</fastagent:response>\n\n<fastagent:evaluation-criteria>\n"
  ++ evaluatorInstruction
  ++ "\n</fastagent:evaluation-criteria>\n</fastagent:data>\n\n<fastagent:instruction>\nProvide a structured evaluation with the following components:\n\n<rating>\nChoose one: EXCELLENT, GOOD, FAIR, or POOR\n- EXCELLENT: No improvements needed\n- GOOD: Only minor improvements possible\n- FAIR: Several improvements needed\n- POOR: Major improvements needed\n</rating>\n\n<details>\nProvide specific, actionable feedback and suggestions for improvement.\nBe precise about what works well and what could be improved.\n</details>\n\n<needs_improvement>\nIndicate true/false whether further improvement is needed.\n</needs_improvement>\n\n<focus-areas>\nList 1-3 specific areas to focus on in the next iteration.\nBe concrete and actionable in your recommendations.\n</focus-areas>\n</fastagent:instruction>\n"

/-- Leading part of the refinement prompt, up to and including the opening of
the request tag (`_build_refinement_prompt`, first three `+=` pieces). -/
def refinementIntro (iteration : Nat) : String :=
  "\nYou are tasked with improving a response based on expert feedback. This is iteration "
  ++ toString (iteration + 1)
  ++ " of the refinement process.\n\nYour goal is to address all feedback points while maintaining accuracy and relevance to the original request.\n\n<fastagent:data>\n\n<fastagent:request>\n"

/-- The previous-response block embedded only when history is not enabled. -/
def previousResponseBlock (currentResponse : String) : String :=
  "\n<fastagent:previous-response>\n" ++ currentResponse ++ "\n</fastagent:previous-response>\n"

/-- The feedback block of the refinement prompt (always embedded). -/
def feedbackBlock (feedback : EvaluationResult) : String :=
  "<fastagent:feedback>\n" ++ ("<rating>" ++ ratingLabel feedback.rating ++ "</rating>")
  ++ "\n" ++ ("<details>" ++ feedback.feedback ++ "</details>")
  ++ "\n" ++ ("<focus-areas>" ++ focusAreasText feedback.focus_areas ++ "</focus-areas>")
  ++ "\n</fastagent:feedback>"

/-- Closing instruction block when the generator does not retain history. -/
def instructionNoHistory : String :=
  "\n<fastagent:instruction>\nCreate an improved version of the response that:\n1. Directly addresses each point in the feedback\n2. Focuses on the specific areas mentioned for improvement\n3. Maintains all the strengths of the original response\n4. Remains accurate and relevant to the original request\n\nProvide your complete improved response without explanations or commentary.\n</fastagent:instruction>\n"

/-- The sentence referring to the generator\x27s retained context. -/
def retainedContextLine : String :=
  "Your previous response is available in your conversation history."

/-- Closing instruction block when the generator retains history. -/
def instructionWithHistory : String :=
  "\n<fastagent:instruction>\n" ++ retainedContextLine
  ++ "\n\nCreate an improved version that:\n1. Directly addresses each point in the feedback\n2. Focuses on the specific areas mentioned for improvement\n3. Maintains all the strengths of your original response\n4. Remains accurate and relevant to the original request\n\nProvide your complete improved response without explanations or commentary.\n</fastagent:instruction>\n"

/-- `EvaluatorOptimizerLLM._build_refinement_prompt`, transcribed literally
(`historyEnabled` is the truthiness of `self.history`). -/
def buildRefinementPrompt (historyEnabled : Bool) (originalRequest currentResponse : String)
    (feedback : EvaluationResult) (iteration : Nat) : String :=
  refinementIntro iteration ++ originalRequest ++ "\n</fastagent:request>\n"
  ++ (if historyEnabled then "" else previousResponseBlock currentResponse)
  ++ "\n" ++ feedbackBlock feedback ++ "\n</fastagent:data>\n"
  ++ (if historyEnabled then instructionWithHistory else instructionNoHistory)

/-- The `while refinement_count < self.max_refinements` loop of
`EvaluatorOptimizerLLM.generate`.  `fuel` is the number of remaining loop
passes (`max_refinements.toNat - count`); `count` is `refinement_count`;
`gen n p` / `ev n p` give the result of the generator / evaluator capability
on its `n`-th call (0-based) with prompt `p`.  Each pass evaluates the current
response, appends a `RefinementRecord`, updates the best response on a
strictly greater rating, breaks when the rating is acceptable or no
improvement is needed, and otherwise regenerates from the refinement prompt. -/
def refineLoop {α : Type} (cfg : EOConfig) (gen : Nat → String → α)
    (ev : Nat → String → EvaluationResult) (respText : α → String) (msg : String) :
    Nat → Nat → α → α → QualityRating → List (RefinementRecord α) →
    List (α × QualityRating) → RunResult α
  | 0, count, _response, best, bestR, hist, snaps =>
    ⟨best, bestR, hist, snaps, count + 1, count⟩
  | fuel + 1, count, response, best, bestR, hist, snaps =>
    let er := ev count
      (buildEvalPrompt cfg.evaluator_instruction msg (respText response) count)
    let hist' := hist ++ [⟨count + 1, response, er⟩]
    let best' := if bestR.toNat < er.rating.toNat then response else best
    let bestR' := if bestR.toNat < er.rating.toNat then er.rating else bestR
    let snaps' := snaps ++ [(best', bestR')]
    if cfg.min_rating.toNat ≤ er.rating.toNat ∨ er.needs_improvement = false then
      ⟨best', bestR', hist', snaps', count + 1, count + 1⟩
    else
      refineLoop cfg gen ev respText msg fuel (count + 1)
        (gen (count + 1)
          (buildRefinementPrompt cfg.history_enabled msg (respText response) er count))
        best' bestR' hist' snaps'

/-- `EvaluatorOptimizerLLM.generate`: initial generation (generator call 0),
then the refinement loop starting from `refinement_count = 0` with
`best_rating = POOR` and the initial response as `best_response`. -/
def generateResult {α : Type} (cfg : EOConfig) (gen : Nat → String → α)
    (ev : Nat → String → EvaluationResult) (respText : α → String) (msg : String) :
    RunResult α :=
  let r0 := gen 0 msg
  refineLoop cfg gen ev respText msg cfg.max_refinements.toNat 0 r0 r0 .POOR [] []

/-- The value `return best_response` yields. -/
def generateReturn {α : Type} (cfg : EOConfig) (gen : Nat → String → α)
    (ev : Nat → String → EvaluationResult) (respText : α → String) (msg : String) : α :=
  (generateResult cfg gen ev respText msg).best

/-! ## Reference passthrough generator (`augmented_llm_passthrough.py`) -/

/-- Untyped Python value passed to `PassthroughLLM.generate`: a plain string,
some opaque structured message, or a list of such values. -/
inductive PyVal where
  | str (s : String)
  | obj (n : Nat)
  | list (xs : List PyVal)
deriving Repr

/-- `PassthroughLLM.generate`:
`return [message] if isinstance(message, list) else message`. -/
def passthroughGenerate (message : PyVal) : PyVal :=
  match message with
  | .list _ => .list [message]
  | m => m

/-- `chars.startsWith pat` on character lists (Python `str.startswith`). -/
def charsStartWith : List Char → List Char → Bool
  | _, [] => true
  | [], _ :: _ => false
  | c :: cs, p :: ps => c == p && charsStartWith cs ps

/-- Python `s.startswith(pat)`. -/
def pyStartsWith (s pat : String) : Bool :=
  charsStartWith s.data pat.data

/-- ASCII whitespace stripped by Python `str.strip()`. -/
def isSpaceChar (c : Char) : Bool :=
  c == ' ' || c == '\t' || c == '\n' || c == '\r' || c == '\x0b' || c == '\x0c'

/-- Drop leading whitespace characters. -/
def dropLeadingSpace : List Char → List Char
  | [] => []
  | c :: cs => if isSpaceChar c then dropLeadingSpace cs else c :: cs

/-- Python `s.strip()` (over the ASCII whitespace characters). -/
def pyStrip (s : String) : String :=
  ⟨((dropLeadingSpace ((dropLeadingSpace s.data).reverse)).reverse)⟩

/-- Split a character list on every space character (Python
`s.split(" ")` with its explicit single-space separator, keeping empty
pieces). -/
def splitOnSpace : List Char → List (List Char)
  | [] => [[]]
  | c :: cs =>
    match splitOnSpace cs with
    | [] => [[]]
    | h :: t => if c = ' ' then [] :: h :: t else (c :: h) :: t

/-- Whether an input begins with one of the two sentinel command markers
(only a plain string can). -/
def beginsWithSentinel (message : PyVal) : Bool :=
  match message with
  | .str s => pyStartsWith s "***CALL_TOOL" || pyStartsWith s "***FIXED_RESPONSE"
  | _ => false

/-- Python `command.split(" ", 2)`: split on single spaces, at most twice,
the third part keeping the remaining separators. -/
def pySplit2 (s : String) : List String :=
  match (splitOnSpace s.data).map (fun l => String.mk l) with
  | p0 :: p1 :: p2 :: rest => [p0, p1, String.intercalate " " (p2 :: rest)]
  | l => l

/-- `PassthroughLLM._parse_tool_command`.  The external `json.loads` is the
collaborator parameter `jsonLoads`, returning `none` exactly when the raw
fragment is not valid JSON (a `json.JSONDecodeError`). -/
def parseToolCommand {β : Type} (jsonLoads : String → Option β) (command : String) :
    Except String (String × Option β) :=
  match pySplit2 command with
  | p0 :: p1 :: rest =>
    let _ := p0
    let toolName := pyStrip p1
    match rest with
    | [] => .ok (toolName, none)
    | frag :: _ =>
      match jsonLoads frag with
      | some a => .ok (toolName, some a)
      | none => .error ("Invalid JSON arguments: " ++ frag)
  | _ => .error "Invalid format. Expected \x27***CALL_TOOL <tool_name> [arguments_json]\x27"

/-- A content item of a tool result: either an object with a `.text`
attribute, or anything else (rendered by `str`). -/
inductive ToolContent where
  | text (t : String)
  | other (raw : String)
deriving Repr

/-- `content_item.text if hasattr(content_item, "text") else str(content_item)`. -/
def toolContentText : ToolContent → String
  | .text t => t
  | .other s => s

/-- Result object returned by `self.aggregator.call_tool`. -/
structure ToolCallResult where
  isError : Bool
  content : List ToolContent
deriving Repr

/-- `PassthroughLLM._format_tool_result`. -/
def formatToolResult (toolName : String) (result : ToolCallResult) : String :=
  if result.isError then
    let errorText := result.content.map toolContentText
    let errorMessage :=
      if errorText.isEmpty then "Unknown error" else String.intercalate "\n" errorText
    "Error calling tool \x27" ++ toolName ++ "\x27: " ++ errorMessage
  else
    String.intercalate "\n" (result.content.map toolContentText)

/-- `PassthroughLLM._call_tool_and_return_result`; the external
`aggregator.call_tool` is the parameter `callTool`.  The second component
counts how many times the tool collaborator is invoked: a raised
`ValueError` is caught and rendered as `"Error calling tool: ..."` with no
invocation. -/
def callToolAndReturnResult {β : Type} (jsonLoads : String → Option β)
    (callTool : String → Option β → ToolCallResult) (command : String) : String × Nat :=
  match parseToolCommand jsonLoads command with
  | .error e => ("Error calling tool: " ++ e, 0)
  | .ok (toolName, args) => (formatToolResult toolName (callTool toolName args), 1)

/-- `PassthroughLLM.generate_str` on a plain-string message: the tool-command
path when the message starts with `"***CALL_TOOL "`, otherwise the echo path
`str(message)`. -/
def passthroughGenerateStr {β : Type} (jsonLoads : String → Option β)
    (callTool : String → Option β → ToolCallResult) (message : String) : String × Nat :=
  if pyStartsWith message "***CALL_TOOL " then
    callToolAndReturnResult jsonLoads callTool message
  else
    (message, 0)

/-- The fixed-response marker `FIXED_RESPONSE_INDICATOR`. -/
def fixedResponseIndicator : String := "***FIXED_RESPONSE"

/-- `PassthroughLLM._apply_prompt_provider_specific` on a list of multipart
messages, each modelled by its text (`first_text` and `all_text` of a
single-text-part message coincide with the text itself; those helpers live
outside the reviewed sources).  The state is `self._fixed_response`; returns
the new state and the assistant reply text.  A last message starting with the
fixed-response marker stores the stripped remainder after the marker (the
marker occurs first at position 0, so Python\x27s
`split(FIXED_RESPONSE_INDICATOR, 1)[1]` is everything after it); the reply is
the stored response if it is truthy (non-empty), else the concatenation of
all messages. -/
def applyPromptPassthrough {β : Type} (jsonLoads : String → Option β)
    (callTool : String → Option β → ToolCallResult) (fixedResponse : Option String)
    (msgs : List String) : Option String × String :=
  let last := msgs.getLast?.getD ""
  if pyStartsWith last "***CALL_TOOL" then
    (fixedResponse, (passthroughGenerateStr jsonLoads callTool last).1)
  else
    let fixedResponse' :=
      if pyStartsWith last fixedResponseIndicator then
        some (pyStrip (last.drop fixedResponseIndicator.length))
      else fixedResponse
    match fixedResponse' with
    | some f =>
      if f = "" then (fixedResponse', String.intercalate "\n" msgs)
      else (fixedResponse', f)
    | none => (fixedResponse', String.intercalate "\n" msgs)

/-! ## Spec-side vocabulary used to state the claims -/

/-- Maximum rating recorded in a history, with the `POOR` sentinel floor. -/
def maxRating {α : Type} (l : List (RefinementRecord α)) : QualityRating :=
  l.foldl (fun acc r => if acc.toNat < r.evaluation.rating.toNat then r.evaluation.rating else acc)
    .POOR

/-- The candidate of the earliest record whose rating equals `q`. -/
def earliestBest {α : Type} (l : List (RefinementRecord α)) (q : QualityRating) : Option α :=
  (l.find? (fun r => r.evaluation.rating == q)).map (fun r => r.candidate)

/-- A best-tracking snapshot `(candidate, rating)` is correct for the records
seen so far: the rating is their maximum and the candidate comes from the
earliest record achieving it. -/
def SnapInv {α : Type} (l : List (RefinementRecord α)) (s : α × QualityRating) : Prop :=
  s.2 = maxRating l ∧ earliestBest l s.2 = some s.1

/-- `pat` occurs verbatim (as a contiguous substring) in `s`. -/
def strContains (pat s : String) : Prop :=
  ∃ a b : List Char, s.data = a ++ pat.data ++ b

/-! ## Claims -/

/-- C10: with `max_refinements <= 0` the `while` loop body never runs:
exactly one generator call, no evaluator call, no `RefinementRecord`, and
the initial candidate is returned with `best_rating` still the `POOR`
sentinel. -/
theorem C10_nonpositive_max_iterations {α : Type} (cfg : EOConfig)
    (gen : Nat → String → α) (ev : Nat → String → EvaluationResult)
    (respText : α → String) (msg : String) (h : cfg.max_refinements ≤ 0) :
    (generateResult cfg gen ev respText msg).genCalls = 1 ∧
    (generateResult cfg gen ev respText msg).evalCalls = 0 ∧
    (generateResult cfg gen ev respText msg).history = [] ∧
    (generateResult cfg gen ev respText msg).best = gen 0 msg ∧
    generateReturn cfg gen ev respText msg = gen 0 msg ∧
    (generateResult cfg gen ev respText msg).bestRating = .POOR := by
  have ht : cfg.max_refinements.toNat = 0 := Int.toNat_of_nonpos h
  simp [generateResult, generateReturn, ht, refineLoop]

/-- Witness for C10 at a concrete configuration. -/
theorem C10_nonpositive_max_iterations_witness :
    (generateResult ⟨.GOOD, 0, false, "c"⟩ (fun n _ => n)
        (fun _ _ => ⟨.POOR, "", true, []⟩) toString "m").genCalls = 1 ∧
    (generateResult ⟨.GOOD, 0, false, "c"⟩ (fun n _ => n)
        (fun _ _ => ⟨.POOR, "", true, []⟩) toString "m").evalCalls = 0 ∧
    (generateResult ⟨.GOOD, 0, false, "c"⟩ (fun n _ => n)
        (fun _ _ => ⟨.POOR, "", true, []⟩) toString "m").history = [] ∧
    (generateResult ⟨.GOOD, 0, false, "c"⟩ (fun n _ => n)
        (fun _ _ => ⟨.POOR, "", true, []⟩) toString "m").best = 0 ∧
    generateReturn ⟨.GOOD, 0, false, "c"⟩ (fun n _ => n)
        (fun _ _ => ⟨.POOR, "", true, []⟩) toString "m" = 0 ∧
    (generateResult ⟨.GOOD, 0, false, "c"⟩ (fun n _ => n)
        (fun _ _ => ⟨.POOR, "", true, []⟩) toString "m").bestRating = .POOR :=
  C10_nonpositive_max_iterations ⟨.GOOD, 0, false, "c"⟩ (fun n _ => n)
    (fun _ _ => ⟨.POOR, "", true, []⟩) toString "m" (by decide)

/-- C4: if the first evaluation already satisfies
`rating >= min_rating or not needs_improvement`, the loop breaks on its
first pass: exactly one generator call and one evaluator call. -/
theorem C4_first_evaluation_accepts {α : Type} (cfg : EOConfig)
    (gen : Nat → String → α) (ev : Nat → String → EvaluationResult)
    (respText : α → String) (msg : String) (hmax : 1 ≤ cfg.max_refinements)
    (hacc : ∀ p, cfg.min_rating.toNat ≤ (ev 0 p).rating.toNat ∨
      (ev 0 p).needs_improvement = false) :
    (generateResult cfg gen ev respText msg).genCalls = 1 ∧
    (generateResult cfg gen ev respText msg).evalCalls = 1 := by
  have h1 : cfg.max_refinements.toNat ≠ 0 := by omega
  obtain ⟨f, hf⟩ := Nat.exists_eq_succ_of_ne_zero h1
  have hp := hacc (buildEvalPrompt cfg.evaluator_instruction msg (respText (gen 0 msg)) 0)
  simp only [generateResult, hf, refineLoop]
  rw [if_pos hp]
  exact ⟨rfl, rfl⟩

/-- Witness for C4 at a concrete configuration and evaluator. -/
theorem C4_first_evaluation_accepts_witness :
    (generateResult ⟨.GOOD, 3, false, "c"⟩ (fun n _ => n)
        (fun _ _ => ⟨.EXCELLENT, "", false, []⟩) toString "m").genCalls = 1 ∧
    (generateResult ⟨.GOOD, 3, false, "c"⟩ (fun n _ => n)
        (fun _ _ => ⟨.EXCELLENT, "", false, []⟩) toString "m").evalCalls = 1 :=
  C4_first_evaluation_accepts ⟨.GOOD, 3, false, "c"⟩ (fun n _ => n)
    (fun _ _ => ⟨.EXCELLENT, "", false, []⟩) toString "m" (by decide)
    (fun _ => Or.inr rfl)

/-- C7 counterexample: `generate` on a list input (which begins with no
sentinel marker) does not return the input list; it returns the one-element
list `[message]` wrapping it. -/
theorem C7_list_input_not_unchanged :
    beginsWithSentinel (PyVal.list []) = false ∧
    passthroughGenerate (.list []) ≠ .list [] := by
  refine ⟨rfl, ?_⟩
  simp [passthroughGenerate]

/-- C7 amended: `PassthroughLLM.generate` returns any non-list input
unchanged (it never inspects sentinel markers), and wraps a list input in a
singleton list: the returned value is `[message]`, not the input list. -/
theorem C7_generate_passthrough_shape :
    (∀ s, passthroughGenerate (.str s) = .str s) ∧
    (∀ n, passthroughGenerate (.obj n) = .obj n) ∧
    (∀ xs, passthroughGenerate (.list xs) = .list [.list xs]) :=
  ⟨fun _ => rfl, fun _ => rfl, fun _ => rfl⟩

/-- C6: a tool-invocation command whose trailing argument block fails JSON
parsing yields the rendered `ValueError` quoting the raw fragment, and the
tool collaborator is never invoked afterward (count 0); no generator or
evaluator capability appears in this path at all. -/
theorem C6_malformed_json_arguments {β : Type} (jsonLoads : String → Option β)
    (callTool : String → Option β → ToolCallResult) (cmd p0 p1 frag : String)
    (hstart : pyStartsWith cmd "***CALL_TOOL " = true)
    (hsplit : pySplit2 cmd = [p0, p1, frag])
    (hbad : jsonLoads frag = none) :
    passthroughGenerateStr jsonLoads callTool cmd
      = ("Error calling tool: " ++ ("Invalid JSON arguments: " ++ frag), 0) ∧
    strContains frag (passthroughGenerateStr jsonLoads callTool cmd).1 := by
  have heq : passthroughGenerateStr jsonLoads callTool cmd
      = ("Error calling tool: " ++ ("Invalid JSON arguments: " ++ frag), 0) := by
    simp [passthroughGenerateStr, hstart, callToolAndReturnResult, parseToolCommand,
      hsplit, hbad]
  refine ⟨heq, ?_⟩
  rw [heq]
  exact ⟨("Error calling tool: " ++ "Invalid JSON arguments: ").data, [],
    by simp [String.data_append, List.append_assoc]⟩

/-- Witness for C6 on a concrete malformed command. -/
theorem C6_malformed_json_arguments_witness :
    passthroughGenerateStr (fun _ => (none : Option Unit)) (fun _ _ => ⟨false, []⟩)
        "***CALL_TOOL t notjson"
      = ("Error calling tool: " ++ ("Invalid JSON arguments: " ++ "notjson"), 0) ∧
    strContains "notjson" (passthroughGenerateStr (fun _ => (none : Option Unit))
      (fun _ _ => ⟨false, []⟩) "***CALL_TOOL t notjson").1 :=
  C6_malformed_json_arguments (fun _ => (none : Option Unit)) (fun _ _ => ⟨false, []⟩)
    "***CALL_TOOL t notjson" "***CALL_TOOL" "t" "notjson" rfl (by decide) rfl

/-- A string contains itself. -/
theorem strContains_refl (pat : String) : strContains pat pat :=
  ⟨[], [], by simp⟩

/-- Containment is preserved by appending on the right. -/
theorem strContains_append_left {pat s : String} (t : String) (h : strContains pat s) :
    strContains pat (s ++ t) := by
  obtain ⟨a, b, hab⟩ := h
  exact ⟨a, b ++ t.data, by simp [String.data_append, hab, List.append_assoc]⟩

/-- Containment is preserved by appending on the left. -/
theorem strContains_append_right {pat t : String} (s : String) (h : strContains pat t) :
    strContains pat (s ++ t) := by
  obtain ⟨a, b, hab⟩ := h
  exact ⟨s.data ++ a, b, by simp [String.data_append, hab, List.append_assoc]⟩

/-- C9: the focus-areas field of the refinement prompt is the literal
`"None specified"` exactly when `focus_areas` is empty, and the comma-joined
sequence in order when non-empty; in both shapes the rendered
`<focus-areas>` element occurs verbatim in the built prompt. -/
theorem C9_focus_areas_field (b : Bool) (req resp d : String) (it : Nat)
    (r : QualityRating) (ni : Bool) (x : String) (xs : List String) :
    focusAreasText [] = "None specified" ∧
    focusAreasText (x :: xs) = String.intercalate ", " (x :: xs) ∧
    strContains "<focus-areas>None specified</focus-areas>"
      (buildRefinementPrompt b req resp ⟨r, d, ni, []⟩ it) ∧
    strContains ("<focus-areas>" ++ String.intercalate ", " (x :: xs) ++ "</focus-areas>")
      (buildRefinementPrompt b req resp ⟨r, d, ni, x :: xs⟩ it) := by
  refine ⟨rfl, rfl, ?_, ?_⟩ <;>
  · unfold buildRefinementPrompt
    apply strContains_append_left
    apply strContains_append_left
    apply strContains_append_right
    unfold feedbackBlock
    apply strContains_append_left
    apply strContains_append_right
    exact strContains_refl _

/-- C5: the refinement prompt embeds the prior candidate verbatim (inside the
previous-response block) exactly when the generator does not retain history:
with `history_enabled = false` the block and the candidate occur verbatim;
with `history_enabled = true` the built prompt is one and the same string
for every prior candidate (so no candidate text is embedded) and contains the
retained-context instruction instead.  The original request and the full
feedback block occur verbatim in both cases. -/
theorem C5_refinement_prompt_history_toggle (req resp resp2 : String)
    (fb : EvaluationResult) (it : Nat) :
    strContains resp (buildRefinementPrompt false req resp fb it) ∧
    strContains (previousResponseBlock resp) (buildRefinementPrompt false req resp fb it) ∧
    buildRefinementPrompt true req resp fb it = buildRefinementPrompt true req resp2 fb it ∧
    strContains retainedContextLine (buildRefinementPrompt true req resp fb it) ∧
    (∀ b : Bool, strContains req (buildRefinementPrompt b req resp fb it) ∧
      strContains (feedbackBlock fb) (buildRefinementPrompt b req resp fb it)) := by
  refine ⟨?_, ?_, rfl, ?_, ?_⟩
  · unfold buildRefinementPrompt
    simp only [Bool.false_eq_true, if_neg, ite_false]
    apply strContains_append_left
    apply strContains_append_left
    apply strContains_append_left
    apply strContains_append_left
    apply strContains_append_right
    unfold previousResponseBlock
    apply strContains_append_left
    apply strContains_append_right
    exact strContains_refl _
  · unfold buildRefinementPrompt
    simp only [Bool.false_eq_true, if_neg, ite_false]
    apply strContains_append_left
    apply strContains_append_left
    apply strContains_append_left
    apply strContains_append_left
    apply strContains_append_right
    exact strContains_refl _
  · unfold buildRefinementPrompt
    simp only [ite_true]
    apply strContains_append_right
    unfold instructionWithHistory
    apply strContains_append_left
    apply strContains_append_right
    exact strContains_refl _
  · intro b
    constructor
    · unfold buildRefinementPrompt
      apply strContains_append_left
      apply strContains_append_left
      apply strContains_append_left
      apply strContains_append_left
      apply strContains_append_left
      apply strContains_append_left
      apply strContains_append_right
      exact strContains_refl _
    · unfold buildRefinementPrompt
      apply strContains_append_left
      apply strContains_append_left
      apply strContains_append_right
      exact strContains_refl _

/-- Generator/evaluator call counts of the loop are bounded by the remaining
fuel: at most `count + fuel + 1` generator calls and `count + fuel`
evaluator calls in total. -/
theorem refineLoop_call_bounds {α : Type} (cfg : EOConfig) (gen : Nat → String → α)
    (ev : Nat → String → EvaluationResult) (respText : α → String) (msg : String)
    (fuel : Nat) :
    ∀ (count : Nat) (response best : α) (bestR : QualityRating)
      (hist : List (RefinementRecord α)) (snaps : List (α × QualityRating)),
      (refineLoop cfg gen ev respText msg fuel count response best bestR hist snaps).genCalls
        ≤ count + fuel + 1 ∧
      (refineLoop cfg gen ev respText msg fuel count response best bestR hist snaps).evalCalls
        ≤ count + fuel := by
  induction fuel with
  | zero =>
    intro count response best bestR hist snaps
    simp [refineLoop]
  | succ f ih =>
    intro count response best bestR hist snaps
    simp only [refineLoop]
    by_cases hc : cfg.min_rating.toNat ≤
        (ev count (buildEvalPrompt cfg.evaluator_instruction msg (respText response)
          count)).rating.toNat ∨
        (ev count (buildEvalPrompt cfg.evaluator_instruction msg (respText response)
          count)).needs_improvement = false
    · rw [if_pos hc]
      exact ⟨by show count + 1 ≤ count + (f + 1) + 1; omega,
        by show count + 1 ≤ count + (f + 1); omega⟩
    · rw [if_neg hc]
      exact ⟨Nat.le_trans (ih _ _ _ _ _ _).1 (by omega),
        Nat.le_trans (ih _ _ _ _ _ _).2 (by omega)⟩

/-- C2 counterexample: with the configuration `max_refinements = -1`
(`max_refinements` is a plain Python `int`), `generate` still makes its one
initial generator call, exceeding the claimed bound
`maxIterations + 1 = 0`. -/
theorem C2_negative_max_iterations_counterexample :
    (generateResult ⟨.GOOD, -1, false, "c"⟩ (fun n _ => n)
      (fun _ _ => ⟨.POOR, "", true, []⟩) toString "m").genCalls = 1 ∧
    ¬ (((generateResult ⟨.GOOD, -1, false, "c"⟩ (fun n _ => n)
      (fun _ _ => ⟨.POOR, "", true, []⟩) toString "m").genCalls : Int) ≤ (-1 : Int) + 1) := by
  decide

/-- C2 amended: for every configuration with `max_refinements >= 0` and any
generator/evaluator behavior, one call to `generate` makes at most
`max_refinements + 1` generator calls and at most `max_refinements`
evaluator calls. -/
theorem C2_call_bounds {α : Type} (cfg : EOConfig) (gen : Nat → String → α)
    (ev : Nat → String → EvaluationResult) (respText : α → String) (msg : String)
    (h : 0 ≤ cfg.max_refinements) :
    ((generateResult cfg gen ev respText msg).genCalls : Int) ≤ cfg.max_refinements + 1 ∧
    ((generateResult cfg gen ev respText msg).evalCalls : Int) ≤ cfg.max_refinements := by
  have hb := refineLoop_call_bounds cfg gen ev respText msg cfg.max_refinements.toNat 0
    (gen 0 msg) (gen 0 msg) .POOR [] []
  have ht : (cfg.max_refinements.toNat : Int) = cfg.max_refinements :=
    Int.toNat_of_nonneg h
  simp only [generateResult] at hb ⊢
  omega

/-- Witness for the amended C2 at a concrete configuration. -/
theorem C2_call_bounds_witness :
    ((generateResult ⟨.GOOD, 2, false, "c"⟩ (fun n _ => n)
      (fun _ _ => ⟨.POOR, "", true, []⟩) toString "m").genCalls : Int) ≤ 2 + 1 ∧
    ((generateResult ⟨.GOOD, 2, false, "c"⟩ (fun n _ => n)
      (fun _ _ => ⟨.POOR, "", true, []⟩) toString "m").evalCalls : Int) ≤ 2 :=
  C2_call_bounds ⟨.GOOD, 2, false, "c"⟩ (fun n _ => n)
    (fun _ _ => ⟨.POOR, "", true, []⟩) toString "m" (by decide)

/-- C3 counterexample: in Scenario A (`min_rating = GOOD`,
`max_refinements = 3`, evaluator returning POOR, POOR, EXCELLENT with
`needs_improvement = true`), the loop makes 3 generator calls, not the
claimed 4 (the accepting third evaluation happens before any third
refinement generation). -/
theorem C3_scenario_a_counterexample :
    (generateResult ⟨.GOOD, 3, false, "c"⟩ (fun n _ => n)
      (fun n _ => if n = 0 then ⟨.POOR, "", true, []⟩
        else if n = 1 then ⟨.POOR, "", true, []⟩
        else ⟨.EXCELLENT, "", true, []⟩) toString "m").genCalls = 3 ∧
    (generateResult ⟨.GOOD, 3, false, "c"⟩ (fun n _ => n)
      (fun n _ => if n = 0 then ⟨.POOR, "", true, []⟩
        else if n = 1 then ⟨.POOR, "", true, []⟩
        else ⟨.EXCELLENT, "", true, []⟩) toString "m").genCalls ≠ 4 ∧
    (generateResult ⟨.GOOD, 3, false, "c"⟩ (fun n _ => n)
      (fun n _ => if n = 0 then ⟨.POOR, "", true, []⟩
        else if n = 1 then ⟨.POOR, "", true, []⟩
        else ⟨.EXCELLENT, "", true, []⟩) toString "m").evalCalls = 3 := by
  decide

/-- C3 amended: in Scenario A the run makes exactly 3 generator calls and 3
evaluator calls, records 3 refinement records, and returns the candidate of
the third iteration (the last recorded candidate). -/
theorem C3_scenario_a {α : Type} (cfg : EOConfig) (gen : Nat → String → α)
    (ev : Nat → String → EvaluationResult) (respText : α → String) (msg : String)
    (hmin : cfg.min_rating = .GOOD) (hmax : cfg.max_refinements = 3)
    (h0r : ∀ p, (ev 0 p).rating = .POOR) (h0n : ∀ p, (ev 0 p).needs_improvement = true)
    (h1r : ∀ p, (ev 1 p).rating = .POOR) (h1n : ∀ p, (ev 1 p).needs_improvement = true)
    (h2r : ∀ p, (ev 2 p).rating = .EXCELLENT)
    (h2n : ∀ p, (ev 2 p).needs_improvement = true) :
    (generateResult cfg gen ev respText msg).genCalls = 3 ∧
    (generateResult cfg gen ev respText msg).evalCalls = 3 ∧
    (generateResult cfg gen ev respText msg).history.length = 3 ∧
    ((generateResult cfg gen ev respText msg).history.getLast?).map
        (fun rec => rec.candidate)
      = some (generateResult cfg gen ev respText msg).best := by
  have ht : cfg.max_refinements.toNat = 3 := by rw [hmax]; rfl
  simp [generateResult, ht, refineLoop, hmin, h0r, h0n, h1r, h1n, h2r, h2n,
    QualityRating.toNat]

/-- Witness for the amended C3 on a concrete generator and evaluator. -/
theorem C3_scenario_a_witness :
    (generateResult ⟨.GOOD, 3, false, "c"⟩ (fun n _ => n)
      (fun n _ => if n = 0 then ⟨.POOR, "", true, []⟩
        else if n = 1 then ⟨.POOR, "", true, []⟩
        else ⟨.EXCELLENT, "", true, []⟩) toString "m").genCalls = 3 ∧
    (generateResult ⟨.GOOD, 3, false, "c"⟩ (fun n _ => n)
      (fun n _ => if n = 0 then ⟨.POOR, "", true, []⟩
        else if n = 1 then ⟨.POOR, "", true, []⟩
        else ⟨.EXCELLENT, "", true, []⟩) toString "m").evalCalls = 3 ∧
    (generateResult ⟨.GOOD, 3, false, "c"⟩ (fun n _ => n)
      (fun n _ => if n = 0 then ⟨.POOR, "", true, []⟩
        else if n = 1 then ⟨.POOR, "", true, []⟩
        else ⟨.EXCELLENT, "", true, []⟩) toString "m").history.length = 3 ∧
    ((generateResult ⟨.GOOD, 3, false, "c"⟩ (fun n _ => n)
      (fun n _ => if n = 0 then ⟨.POOR, "", true, []⟩
        else if n = 1 then ⟨.POOR, "", true, []⟩
        else ⟨.EXCELLENT, "", true, []⟩) toString "m").history.getLast?).map
        (fun rec => rec.candidate)
      = some (generateResult ⟨.GOOD, 3, false, "c"⟩ (fun n _ => n)
      (fun n _ => if n = 0 then ⟨.POOR, "", true, []⟩
        else if n = 1 then ⟨.POOR, "", true, []⟩
        else ⟨.EXCELLENT, "", true, []⟩) toString "m").best :=
  C3_scenario_a ⟨.GOOD, 3, false, "c"⟩ (fun n _ => n)
    (fun n _ => if n = 0 then ⟨.POOR, "", true, []⟩
      else if n = 1 then ⟨.POOR, "", true, []⟩
      else ⟨.EXCELLENT, "", true, []⟩) toString "m" rfl rfl
    (fun _ => rfl) (fun _ => rfl) (fun _ => rfl) (fun _ => rfl) (fun _ => rfl)
    (fun _ => rfl)

/-- C8 counterexample: the command `"***FIXED_RESPONSE"` stores the empty
string, but a subsequent non-command request `"hello"` is echoed instead of
returning the stored literal, because `if self._fixed_response:` treats the
empty stored string as falsy. -/
theorem C8_empty_fixed_response_counterexample :
    (applyPromptPassthrough (fun _ => (none : Option Unit)) (fun _ _ => ⟨false, []⟩)
      none ["***FIXED_RESPONSE"]).1 = some "" ∧
    (applyPromptPassthrough (fun _ => (none : Option Unit)) (fun _ _ => ⟨false, []⟩)
      (some "") ["hello"]).2 = "hello" ∧
    "hello" ≠ "" := by
  decide

/-- C8 amended: a fixed-response command stores the stripped text after the
marker, and — provided that stored literal is non-empty — every subsequent
non-command request returns exactly the stored literal, leaving it stored. -/
theorem C8_fixed_response_override {β : Type} (jsonLoads : String → Option β)
    (callTool : String → Option β → ToolCallResult) :
    (∀ (st : Option String) (l : List String) (m : String),
      pyStartsWith m "***CALL_TOOL" = false →
      pyStartsWith m fixedResponseIndicator = true →
      (applyPromptPassthrough jsonLoads callTool st (l ++ [m])).1
        = some (pyStrip (m.drop fixedResponseIndicator.length))) ∧
    (∀ (f : String) (l : List String) (m : String), f ≠ "" →
      pyStartsWith m "***CALL_TOOL" = false →
      pyStartsWith m fixedResponseIndicator = false →
      applyPromptPassthrough jsonLoads callTool (some f) (l ++ [m]) = (some f, f)) := by
  constructor
  · intro st l m h1 h2
    by_cases hc : pyStrip (m.drop fixedResponseIndicator.length) = "" <;>
      simp [applyPromptPassthrough, h1, h2, hc]
  · intro f l m hf h1 h2
    simp [applyPromptPassthrough, h1, h2, hf]

/-- Witness for the amended C8 on concrete commands. -/
theorem C8_fixed_response_override_witness :
    (applyPromptPassthrough (fun _ => (none : Option Unit)) (fun _ _ => ⟨false, []⟩)
      none (["x"] ++ ["***FIXED_RESPONSE hi"])).1 = some "hi" ∧
    applyPromptPassthrough (fun _ => (none : Option Unit)) (fun _ _ => ⟨false, []⟩)
      (some "hi") ([] ++ ["echo"]) = (some "hi", "hi") := by
  have h := C8_fixed_response_override (fun _ => (none : Option Unit))
    (fun _ _ => ⟨false, []⟩)
  constructor
  · have h1 := h.1 none ["x"] "***FIXED_RESPONSE hi" (by decide) (by decide)
    rw [h1]
    decide
  · exact h.2 "hi" [] "echo" (by decide) (by decide) (by decide)

/-- `QualityRating.toNat` is injective. -/
theorem qualityRating_toNat_injective : ∀ (a b : QualityRating), a.toNat = b.toNat → a = b := by
  intro a b
  cases a <;> cases b <;> simp [QualityRating.toNat]

/-- Appending one record folds its rating into the running maximum. -/
theorem maxRating_append {α : Type} (hist : List (RefinementRecord α))
    (rec : RefinementRecord α) :
    maxRating (hist ++ [rec]) =
      if (maxRating hist).toNat < rec.evaluation.rating.toNat then rec.evaluation.rating
      else maxRating hist := by
  simp [maxRating, List.foldl_append]

/-- One loop pass preserves the best-tracking invariant: after appending the
new record and applying the strict-improvement update, the tracked rating is
the maximum of the extended history, the tracked candidate is the earliest
record achieving it, and every snapshot (including the new one) is
consistent with its prefix of the history. -/
theorem refineStep_preserves {α : Type} (resp₀ best best' : α)
    (bestR bestR' : QualityRating) (rc : RefinementRecord α)
    (hist : List (RefinementRecord α)) (snaps : List (α × QualityRating))
    (hb : best' = if bestR.toNat < rc.evaluation.rating.toNat then rc.candidate else best)
    (hr : bestR' = if bestR.toNat < rc.evaluation.rating.toNat then rc.evaluation.rating
      else bestR)
    (h1 : bestR = maxRating hist)
    (h2 : ∀ r ∈ hist, r.evaluation.rating.toNat ≤ bestR.toNat)
    (h3 : hist = [] → best = resp₀ ∧ rc.candidate = resp₀ ∧ bestR = QualityRating.POOR)
    (h4 : hist ≠ [] → earliestBest hist bestR = some best)
    (h5 : snaps.length = hist.length)
    (h6 : ∀ k (hk : k < snaps.length), SnapInv (hist.take (k+1)) (snaps.get ⟨k, hk⟩)) :
    bestR' = maxRating (hist ++ [rc]) ∧
    (∀ r ∈ hist ++ [rc], r.evaluation.rating.toNat ≤ bestR'.toNat) ∧
    earliestBest (hist ++ [rc]) bestR' = some best' ∧
    (snaps ++ [(best', bestR')]).length = (hist ++ [rc]).length ∧
    (∀ k (hk : k < (snaps ++ [(best', bestR')]).length),
      SnapInv ((hist ++ [rc]).take (k+1)) ((snaps ++ [(best', bestR')]).get ⟨k, hk⟩)) := by
  have hA : bestR' = maxRating (hist ++ [rc]) := by
    rw [hr]
    by_cases hlt : bestR.toNat < rc.evaluation.rating.toNat <;>
      simp [maxRating_append, ← h1, hlt]
  have hB : ∀ r ∈ hist ++ [rc], r.evaluation.rating.toNat ≤ bestR'.toNat := by
    intro r hmem
    rcases List.mem_append.mp hmem with hin | hin
    · have hle := h2 r hin
      rw [hr]
      by_cases hlt : bestR.toNat < rc.evaluation.rating.toNat
      · rw [if_pos hlt]; omega
      · rw [if_neg hlt]; exact hle
    · have hreq : r = rc := by simpa using hin
      rw [hreq, hr]
      by_cases hlt : bestR.toNat < rc.evaluation.rating.toNat
      · rw [if_pos hlt]
      · rw [if_neg hlt]
        omega
  have hC : earliestBest (hist ++ [rc]) bestR' = some best' := by
    by_cases hlt : bestR.toNat < rc.evaluation.rating.toNat
    · have hr' : bestR' = rc.evaluation.rating := by rw [hr, if_pos hlt]
      have hb' : best' = rc.candidate := by rw [hb, if_pos hlt]
      have hnone : hist.find? (fun r => r.evaluation.rating == bestR') = none := by
        apply List.find?_eq_none.mpr
        intro r hin
        have hle := h2 r hin
        simp only [beq_iff_eq]
        intro heq
        rw [heq, hr'] at hle
        omega
      unfold earliestBest
      rw [List.find?_append, hnone]
      simp [hr', hb']
    · have hr' : bestR' = bestR := by rw [hr, if_neg hlt]
      have hb' : best' = best := by rw [hb, if_neg hlt]
      by_cases hemp : hist = []
      · obtain ⟨hbest, hresp, hpoor⟩ := h3 hemp
        have herp : rc.evaluation.rating = QualityRating.POOR := by
          apply qualityRating_toNat_injective
          have hle : rc.evaluation.rating.toNat ≤ bestR.toNat := by omega
          rw [hpoor] at hle
          revert hle
          cases rc.evaluation.rating <;> simp [QualityRating.toNat]
        subst hemp
        unfold earliestBest
        simp [hr', hpoor, herp, hb', hbest, hresp]
      · have hfound := h4 hemp
        unfold earliestBest at hfound ⊢
        rw [List.find?_append, hr']
        obtain ⟨r0, hr0, hcand⟩ : ∃ r0,
            hist.find? (fun r => r.evaluation.rating == bestR) = some r0 ∧
            r0.candidate = best := by
          rcases hfind : hist.find? (fun r => r.evaluation.rating == bestR) with _ | r0
          · rw [hfind] at hfound; simp at hfound
          · rw [hfind] at hfound
            simp at hfound
            exact ⟨r0, hfind, hfound⟩
        rw [hr0]
        simp [Option.or, hcand, hb']
  have hD : (snaps ++ [(best', bestR')]).length = (hist ++ [rc]).length := by
    simp [h5]
  refine ⟨hA, hB, hC, hD, ?_⟩
  intro k hk
  have hk' : k < snaps.length + 1 := by simpa using hk
  rcases Nat.lt_succ_iff_lt_or_eq.mp hk' with hklt | hkeq
  · have htake : (hist ++ [rc]).take (k+1) = hist.take (k+1) :=
      List.take_append_of_le_length (by omega)
    have hget : (snaps ++ [(best', bestR')]).get ⟨k, hk⟩ = snaps.get ⟨k, hklt⟩ := by
      simp [List.get_eq_getElem, List.getElem_append_left hklt]
    rw [htake, hget]
    exact h6 k hklt
  · subst hkeq
    have hget : (snaps ++ [(best', bestR')]).get ⟨snaps.length, hk⟩ = (best', bestR') := by
      simp [List.get_eq_getElem]
    have htake : (hist ++ [rc]).take (snaps.length + 1) = hist ++ [rc] :=
      List.take_of_length_le (by simp [h5])
    rw [htake, hget]
    exact ⟨hA, hC⟩

/-- The best-tracking invariant at the end of a run: the tracked rating is
the maximum recorded rating, the tracked candidate comes from the earliest
record achieving it (or is the initial candidate when nothing was recorded),
and every snapshot is consistent with its prefix of the history. -/
def ResultInv {α : Type} (resp₀ : α) (res : RunResult α) : Prop :=
  res.bestRating = maxRating res.history ∧
  (res.history = [] → res.best = resp₀ ∧ res.bestRating = QualityRating.POOR) ∧
  (res.history ≠ [] → earliestBest res.history res.bestRating = some res.best) ∧
  res.snaps.length = res.history.length ∧
  (∀ k (hk : k < res.snaps.length),
    SnapInv (res.history.take (k+1)) (res.snaps.get ⟨k, hk⟩))

/-- The refinement loop preserves the best-tracking invariant from any
invariant-satisfying entry state. -/
theorem refineLoop_invariant {α : Type} (cfg : EOConfig) (gen : Nat → String → α)
    (ev : Nat → String → EvaluationResult) (respText : α → String) (msg : String)
    (resp₀ : α) (fuel : Nat) :
    ∀ (count : Nat) (response best : α) (bestR : QualityRating)
      (hist : List (RefinementRecord α)) (snaps : List (α × QualityRating)),
      bestR = maxRating hist →
      (∀ r ∈ hist, r.evaluation.rating.toNat ≤ bestR.toNat) →
      (hist = [] → best = resp₀ ∧ response = resp₀ ∧ bestR = QualityRating.POOR) →
      (hist ≠ [] → earliestBest hist bestR = some best) →
      snaps.length = hist.length →
      (∀ k (hk : k < snaps.length), SnapInv (hist.take (k+1)) (snaps.get ⟨k, hk⟩)) →
      ResultInv resp₀ (refineLoop cfg gen ev respText msg fuel count response best bestR hist snaps) := by
  induction fuel with
  | zero =>
    intro count response best bestR hist snaps h1 h2 h3 h4 h5 h6
    simp only [refineLoop]
    exact ⟨h1, fun he => ⟨(h3 he).1, (h3 he).2.2⟩, h4, h5, h6⟩
  | succ f ih =>
    intro count response best bestR hist snaps h1 h2 h3 h4 h5 h6
    simp only [refineLoop]
    set er := ev count (buildEvalPrompt cfg.evaluator_instruction msg (respText response) count)
      with her
    have hstep := refineStep_preserves resp₀ best
      (if bestR.toNat < er.rating.toNat then response else best) bestR
      (if bestR.toNat < er.rating.toNat then er.rating else bestR)
      (⟨count + 1, response, er⟩ : RefinementRecord α) hist snaps rfl rfl
      h1 h2 h3 h4 h5 h6
    by_cases hc : cfg.min_rating.toNat ≤ er.rating.toNat ∨ er.needs_improvement = false
    · rw [if_pos hc]
      exact ⟨hstep.1, fun he => absurd he (by simp), fun _ => hstep.2.2.1,
        hstep.2.2.2.1, hstep.2.2.2.2⟩
    · rw [if_neg hc]
      exact ih (count + 1) _ _ _ _ _ hstep.1 hstep.2.1 (fun he => absurd he (by simp))
        (fun _ => hstep.2.2.1) hstep.2.2.2.1 hstep.2.2.2.2

/-- C1: throughout every run of `generate`, after each evaluation is recorded
(and the strict-improvement update applied) the tracked `best_rating` equals
the maximum rating among all recorded `RefinementRecord`s so far and the
tracked `best_response` is the candidate of the earliest record achieving
that maximum (the strict `>` update means ties never displace the existing
best); the same holds of the final state, and the value returned by
`generate` is this best candidate.  When nothing was recorded the initial
candidate is returned. -/
theorem C1_best_tracking {α : Type} (cfg : EOConfig) (gen : Nat → String → α)
    (ev : Nat → String → EvaluationResult) (respText : α → String) (msg : String) :
    ((generateResult cfg gen ev respText msg).bestRating
      = maxRating (generateResult cfg gen ev respText msg).history) ∧
    ((generateResult cfg gen ev respText msg).history ≠ [] →
      earliestBest (generateResult cfg gen ev respText msg).history
          (generateResult cfg gen ev respText msg).bestRating
        = some (generateResult cfg gen ev respText msg).best) ∧
    ((generateResult cfg gen ev respText msg).history = [] →
      (generateResult cfg gen ev respText msg).best = gen 0 msg) ∧
    ((generateResult cfg gen ev respText msg).snaps.length
      = (generateResult cfg gen ev respText msg).history.length) ∧
    (∀ k (hk : k < (generateResult cfg gen ev respText msg).snaps.length),
      SnapInv ((generateResult cfg gen ev respText msg).history.take (k+1))
        ((generateResult cfg gen ev respText msg).snaps.get ⟨k, hk⟩)) ∧
    generateReturn cfg gen ev respText msg = (generateResult cfg gen ev respText msg).best := by
  have h := refineLoop_invariant cfg gen ev respText msg (gen 0 msg)
    cfg.max_refinements.toNat 0 (gen 0 msg) (gen 0 msg) .POOR [] []
    rfl (by simp) (fun _ => ⟨rfl, rfl, rfl⟩) (fun hne => absurd rfl hne) rfl
    (fun k hk => absurd hk (by simp))
  obtain ⟨a, b, c, d, e⟩ := h
  exact ⟨a, c, fun he => (b he).1, d, e, rfl⟩

/-- Witness for C1 on a concrete run (two FAIR evaluations, `max = 2`). -/
theorem C1_best_tracking_witness :
    (generateResult ⟨.GOOD, 2, false, "c"⟩ (fun n _ => n)
        (fun _ _ => ⟨.FAIR, "", true, []⟩) toString "m").bestRating
      = maxRating (generateResult ⟨.GOOD, 2, false, "c"⟩ (fun n _ => n)
        (fun _ _ => ⟨.FAIR, "", true, []⟩) toString "m").history ∧
    earliestBest (generateResult ⟨.GOOD, 2, false, "c"⟩ (fun n _ => n)
        (fun _ _ => ⟨.FAIR, "", true, []⟩) toString "m").history
        (generateResult ⟨.GOOD, 2, false, "c"⟩ (fun n _ => n)
        (fun _ _ => ⟨.FAIR, "", true, []⟩) toString "m").bestRating
      = some (generateResult ⟨.GOOD, 2, false, "c"⟩ (fun n _ => n)
        (fun _ _ => ⟨.FAIR, "", true, []⟩) toString "m").best ∧
    SnapInv ((generateResult ⟨.GOOD, 2, false, "c"⟩ (fun n _ => n)
        (fun _ _ => ⟨.FAIR, "", true, []⟩) toString "m").history.take 1)
      ((generateResult ⟨.GOOD, 2, false, "c"⟩ (fun n _ => n)
        (fun _ _ => ⟨.FAIR, "", true, []⟩) toString "m").snaps.get ⟨0, by decide⟩) := by
  have h := C1_best_tracking ⟨.GOOD, 2, false, "c"⟩ (fun n _ => n)
    (fun _ _ => ⟨.FAIR, "", true, []⟩) toString "m"
  exact ⟨h.1, h.2.1 (by decide), h.2.2.2.2.1 0 (by decide)⟩
